import Mathlib

/-!
# xlr8-rest: the resource pipeline of `src/resource.js`

A shallow embedding of the `Resource` class and of the default CRUD handlers
of `src/resource.js`, followed by the properties proved about them.

Conventions of the embedding.

* JavaScript values are the type `JsVal`; numbers are integers (no floating
  point, hence no `NaN`), objects are association lists of own data
  properties.
* A promise is represented by the outcome it settles to (`Promise α`);
  `p.then(f)` is sequencing in the monad `M`, whose state `World` holds the
  response handle `res` and the trace of observable events (logger calls,
  backend calls, marks written by user code).  A computation that fails keeps
  the world it failed in, so that "nothing ran after the failure" is a
  statement about that world.
* A promise chain is run where it is created: the backend call that a
  default handler places inside `operation.result` is traced at that point.
  No property below depends on where that call falls relative to later
  stages.
* `operation.resource` is the resource whose pipeline created the operation
  (`new Operation(targetResource, opkey, req, res)`); it is passed to the
  functions below as the explicit argument `r`, and `operation.res` is the
  `res` of the world.
-/

namespace Xlr8Rest

/-! ## JavaScript values -/

/-- A JavaScript value: the primitives and plain objects and arrays. -/
inductive JsVal where
  | undefined
  | null
  | bool (b : Bool)
  | num (n : Int)
  | str (s : String)
  | obj (fields : List (String × JsVal))
  | arr (items : List JsVal)

namespace JsVal

/-- JavaScript truthiness (`ToBoolean`): `undefined`, `null`, `false`, `0`
and the empty string are falsy, everything else is truthy. -/
def truthy : JsVal → Bool
  | undefined => false
  | null => false
  | bool b => b
  | num n => !(n == 0)
  | str s => !(s == "")
  | obj _ => true
  | arr _ => true

/-- The operator `a || b`. -/
def or (a b : JsVal) : JsVal := if a.truthy then a else b

/-- The test `v === n` against a number literal. -/
def isNum (v : JsVal) (n : Int) : Bool :=
  match v with
  | num m => m == n
  | _ => false

/-- The test `v === s` against a string. -/
def isStr (v : JsVal) (s : String) : Bool :=
  match v with
  | str t => t == s
  | _ => false

mutual
/-- String conversion (`ToString`), as a template literal applies it. -/
def toStr : JsVal → String
  | undefined => "undefined"
  | null => "null"
  | bool b => if b then "true" else "false"
  | num n => toString n
  | str s => s
  | obj _ => "[object Object]"
  | arr items => joinStr items
termination_by structural v => v
/-- The elements of an array joined by commas (`Array.prototype.join`): a
`null` or `undefined` element contributes the empty string. -/
def joinStr : List JsVal → String
  | [] => ""
  | [v] =>
    match v with
    | undefined => ""
    | null => ""
    | w => toStr w
  | v :: w :: rest =>
    (match v with
      | undefined => ""
      | null => ""
      | u => toStr u) ++ "," ++ joinStr (w :: rest)
termination_by structural vs => vs
end

/-- The own data property `k` of an object given by its fields; a missing
property reads as `undefined`. -/
def lookup (k : String) : List (String × JsVal) → JsVal
  | [] => undefined
  | (k', v) :: rest => if k' == k then v else lookup k rest

end JsVal

/-- The `TypeError` a JavaScript engine throws. -/
def typeError (msg : String) : JsVal :=
  .obj [("name", .str "TypeError"), ("message", .str msg)]

/-- The `ReferenceError` thrown when an undeclared name is evaluated. -/
def referenceError (name : String) : JsVal :=
  .obj [("name", .str "ReferenceError"), ("message", .str (name ++ " is not defined"))]

/-- A promise, represented by the outcome it settles to: fulfilled with a
value or rejected with the thrown JavaScript value. -/
abbrev Promise (α : Type) : Type := Except JsVal α

/-- Property read `v.k` (own data properties only): reading a property of
`undefined` or `null` throws a `TypeError`; primitives other than strings have
no own data property; strings and arrays have `length`. -/
def getProp (v : JsVal) (k : String) : Except JsVal JsVal :=
  match v with
  | .undefined => .error (typeError ("Cannot read property " ++ k ++ " of undefined"))
  | .null => .error (typeError ("Cannot read property " ++ k ++ " of null"))
  | .obj fields => .ok (JsVal.lookup k fields)
  | .arr items => .ok (if k == "length" then .num items.length else .undefined)
  | .str s => .ok (if k == "length" then .num s.length else .undefined)
  | _ => .ok .undefined

/-- Indexed read `v[i]`. -/
def getIndex (v : JsVal) (i : Nat) : Except JsVal JsVal :=
  match v with
  | .undefined => .error (typeError ("Cannot read property " ++ toString i ++ " of undefined"))
  | .null => .error (typeError ("Cannot read property " ++ toString i ++ " of null"))
  | .obj fields => .ok (JsVal.lookup (toString i) fields)
  | .arr items => .ok (items.getD i .undefined)
  | .str s => .ok (match s.data.get? i with
      | some c => .str (String.singleton c)
      | none => .undefined)
  | _ => .ok .undefined

/-! ## The world: response handle and trace -/

/-- The levels of the injected `logger`. -/
inductive Level where
  | trace
  | debug
  | info
  | error
  deriving DecidableEq

/-- An observable event. -/
inductive Event where
  /-- A call `logger.<level>(msg, ...)`. -/
  | log (level : Level) (msg : String)
  /-- A call `backend.<method>(operation)` of the resolved backend. -/
  | backend (method : String)
  /-- A call `schema.validate(value)`. -/
  | validate
  /-- A mark written by user code (a hook or a handler override). -/
  | mark (tag : Nat)
  deriving DecidableEq

/-- What has been sent on the response. -/
inductive Payload where
  /-- The call `res.end()`: the response is ended with no body. -/
  | empty
  /-- The call `res.end(chunk)`. -/
  | raw (chunk : JsVal)
  /-- The call `res.json(body)`. -/
  | json (body : JsVal)

/-- The response handle `res`: the status set by `res.status(code)` (200 until
set) and what has been sent, if anything. -/
structure Response where
  statusCode : JsVal
  sent : Option Payload

/-- A fresh response: status 200, nothing sent. -/
def Response.fresh : Response := { statusCode := .num 200, sent := none }

/-- The state a request runs in. -/
structure World where
  res : Response
  trace : List Event

/-- A fresh world. -/
def World.fresh : World := { res := Response.fresh, trace := [] }

/-- A computation over the world that fulfils with a value or rejects with a
thrown value, keeping the world in both cases. -/
def M (α : Type) : Type := World → Except JsVal α × World

namespace M

/-- A computation that fulfils with `a`. -/
def ret {α : Type} (a : α) : M α := fun w => (.ok a, w)

/-- Sequencing (`.then`): a rejection skips the continuation. -/
def andThen {α β : Type} (m : M α) (f : α → M β) : M β := fun w =>
  match m w with
  | (.ok a, w') => f a w'
  | (.error e, w') => (.error e, w')

/-- A computation that rejects with `e` (`throw e`). -/
def fail {α : Type} (e : JsVal) : M α := fun w => (.error e, w)

/-- Awaiting a settled promise, or running a synchronous step that may throw. -/
def await {α : Type} (p : Promise α) : M α := fun w => (p, w)

/-- Running a promise chain to the promise it yields: the chain never throws
into its caller, its rejection is the state of the promise. -/
def settle {α : Type} (m : M α) : M (Promise α) := fun w =>
  let out := m w
  (.ok out.1, out.2)

/-- Appending an event to the trace. -/
def emit (ev : Event) : M Unit := fun w => (.ok (), { w with trace := w.trace ++ [ev] })

/-- The call `res.status(code)`. -/
def setStatus (code : JsVal) : M Unit := fun w =>
  (.ok (), { w with res := { w.res with statusCode := code } })

/-- The calls `res.end()`, `res.end(chunk)` and `res.json(body)`. -/
def send (p : Payload) : M Unit := fun w =>
  (.ok (), { w with res := { w.res with sent := some p } })

end M

instance : Monad M where
  pure := M.ret
  bind := M.andThen

/-- A call `logger.<level>(msg, ...)`. -/
def logger (level : Level) (msg : String) : M Unit := M.emit (.log level msg)

/-! ## Operations, backends, schemas -/

/-- The three states of the property `operation.result`: never assigned, a
promise, or (after `Promise.props`) the value the promise resolved to. -/
inductive ResultSlot where
  | unset
  | promise (p : Promise JsVal)
  | value (v : JsVal)

/-- Modelled from the spec: the `Operation` class of `./operation`, which is
not part of the sources: the per-request context with the operation type
`key`, the resource instance identifier `id`, the parsed body `payload` and
the `result` assigned by the handler.  Its `resource`, `req` and `res` are the
explicit resource argument and the world. -/
structure Operation where
  key : String
  id : JsVal
  payload : JsVal
  result : ResultSlot

/-- Modelled from the spec: the backend capability (an external collaborator),
`{read, list, create, update, patch, remove}(operation) → future<result>`. -/
structure Backend where
  read : Operation → Promise JsVal
  list : Operation → Promise JsVal
  create : Operation → Promise JsVal
  update : Operation → Promise JsVal
  patch : Operation → Promise JsVal
  remove : Operation → Promise JsVal

/-- Modelled from the spec: the validator that `new XLR8.JsonSchema(definition)`
builds (an external collaborator): `validate(value)` and an `errors` property. -/
structure Validator where
  validate : JsVal → JsVal
  errors : JsVal

/-- Modelled from the spec: the external collaborators injected into the
module: `proc.resolve(key, {type: 'rest-backend'})`, a promise of the mapping
from component names to backends; `proc.resolve(ref, {type: 'schema'})`, a
promise of the mapping from schema names to definitions; and the constructor
`new XLR8.JsonSchema(definition)`. -/
structure Env where
  resolveBackend : JsVal → Promise (String → Option Backend)
  resolveSchema : JsVal → Promise JsVal
  jsonSchema : JsVal → Except JsVal Validator

/-- A hook `{op, priority, fn}`; `priority` is `none` when the property is
unset. -/
structure Hook where
  op : JsVal
  priority : Option Int
  fn : Operation → M Operation

/-- A handler override `handler(operation, defaultHandler)`. -/
abbrev Handler : Type := Operation → (Operation → M Operation) → M Operation

/-- The lifecycle phases, the property names `'pre'` and `'post'`. -/
inductive Phase where
  | pre
  | post
  deriving DecidableEq

/-- The declarative description handed to the constructor. -/
structure Spec where
  key : JsVal
  path : JsVal
  backend : JsVal
  backendKey : JsVal
  schema : JsVal
  pre : Option (List Hook)
  post : Option (List Hook)
  handlers : Option (String → Option Handler)

/-- A `Resource` instance as its methods see it once `$ready` has settled.
`schema` is `none` while the property is falsy and `some p` once it holds the
promise `p`. -/
structure Resource where
  ready : Promise Unit
  key : JsVal
  path : JsVal
  backendKey : JsVal
  backendConfig : JsVal
  backend : Promise (Option Backend)
  schemaKey : JsVal
  schema : Option (Promise JsVal)
  pre : Option (List Hook)
  post : Option (List Hook)
  handlers : Option (String → Option Handler)

/-! ## The default handlers (`doRead` ... `doRemove`) -/

/-- The promise `operation.resource.backend.then(backend => backend.m(operation))`
of the default handlers: it rejects when the backend promise rejected, throws
a `TypeError` when the backend resolved to `undefined`, and otherwise calls the
backend method. -/
def callBackend (r : Resource) (method : String) (call : Backend → Promise JsVal) : M JsVal := do
  let backend ← M.await r.backend
  match backend with
  | none => M.fail (typeError ("Cannot read property " ++ method ++ " of undefined"))
  | some b =>
    M.emit (.backend method)
    M.await (call b)

/-- The function `doRead` (lines 26-30). -/
def doRead (r : Resource) (operation : Operation) : M Operation := do
  logger .debug "performing a read operation"
  let result ← M.settle (callBackend r "read" (fun b => b.read operation))
  pure { operation with result := .promise result }

/-- The function `doList` (lines 32-39). -/
def doList (r : Resource) (operation : Operation) : M Operation := do
  logger .debug "performing a list operation"
  let result ← M.settle (do
    let backend ← M.await r.backend
    logger .debug "backend"
    match backend with
    | none => M.fail (typeError "Cannot read property list of undefined")
    | some b =>
      M.emit (.backend "list")
      M.await (b.list operation))
  pure { operation with result := .promise result }

/-- The method `getSchema` (lines 109-113): awaits `$ready`, then the schema
promise, and wraps `schemas[this.schemaKey]` into a validator. -/
def Resource.getSchema (env : Env) (r : Resource) (_opkey : String) : M Validator := do
  M.await r.ready
  match r.schema with
  | none => M.fail (typeError "Cannot read property then of undefined")
  | some p =>
    let schemas ← M.await p
    let definition ← M.await (getProp schemas r.schemaKey.toStr)
    M.await (env.jsonSchema definition)

/-- The success branch of `doCreate` (lines 46-61), taken when
`result.result.ok && result.insertedCount === 1`.  In the branch where
validation fails, evaluating the arguments of
`logger.debug("schema is invalid", schma.errors)` throws a `ReferenceError`,
`schma` being declared nowhere, before anything is logged or returned. -/
def createSuccess (env : Env) (r : Resource) (operation : Operation) (result : JsVal) :
    M JsVal := do
  M.setStatus (.num 201)
  if r.schema.isSome then
    logger .debug "Let's coerce our return value"
    let schema ← r.getSchema env operation.key
    logger .debug "we have found our schema"
    let ops ← M.await (getProp result "ops")
    let inserted ← M.await (getIndex ops 0)
    M.emit .validate
    if (schema.validate inserted).truthy then
      logger .debug "result is valid, let's return it"
      pure inserted
    else
      M.fail (referenceError "schma")
  else
    let ops ← M.await (getProp result "ops")
    M.await (getIndex ops 0)

/-- The promise chain assigned to `operation.result` by `doCreate`
(lines 43-65). -/
def createResult (env : Env) (r : Resource) (operation : Operation) : M JsVal := do
  let result ← callBackend r "create" (fun b => b.create operation)
  logger .debug "create result"
  let ack ← M.await (getProp result "result")
  let ok ← M.await (getProp ack "ok")
  let insertedCount ← M.await (getProp result "insertedCount")
  if ok.truthy && insertedCount.isNum 1 then
    createSuccess env r operation result
  else
    pure ack

/-- The call `Promise.props(operation)`: the promise-valued properties are
replaced by what they resolve to, and a rejected one rejects the whole. -/
def promiseProps (operation : Operation) : M Operation :=
  match operation.result with
  | .promise (.ok v) => pure { operation with result := .value v }
  | .promise (.error e) => M.fail e
  | _ => pure operation

/-- The function `doCreate` (lines 41-67). -/
def doCreate (env : Env) (r : Resource) (operation : Operation) : M Operation := do
  logger .debug "performing a create operation"
  let result ← M.settle (createResult env r operation)
  promiseProps { operation with result := .promise result }

/-- The function `doUpdate` (lines 69-73). -/
def doUpdate (r : Resource) (operation : Operation) : M Operation := do
  logger .debug "performing a update operation"
  let result ← M.settle (callBackend r "update" (fun b => b.update operation))
  pure { operation with result := .promise result }

/-- The function `doPatch` (lines 75-79). -/
def doPatch (r : Resource) (operation : Operation) : M Operation := do
  logger .debug "performing a patch operation"
  let result ← M.settle (callBackend r "patch" (fun b => b.patch operation))
  pure { operation with result := .promise result }

/-- The function `doRemove` (lines 81-85). -/
def doRemove (r : Resource) (operation : Operation) : M Operation := do
  logger .debug "performing a remove operation"
  let result ← M.settle (callBackend r "remove" (fun b => b.remove operation))
  pure { operation with result := .promise result }

/-! ## The class `Resource` -/

/-- The fields after `Object.assign(this, data)` when the initialisation then
throws `e`: `$ready` is rejected, and no method reads the other fields. -/
def Resource.failed (spec : Spec) (e : JsVal) : Resource :=
  { ready := .error e, key := spec.key, path := spec.path,
    backendKey := spec.backendKey, backendConfig := .undefined,
    backend := .error e, schemaKey := .undefined, schema := none,
    pre := spec.pre, post := spec.post, handlers := spec.handlers }

/-- The constructor (lines 88-108): the instance once `$ready` has settled.
`backendKey` is `this.backend.ref || this.backend || this.backendKey`,
`backendConfig` is `this.backend.config || {}`, the backend is the component
named `backendKey` among those `proc.resolve` yields, `schemaKey` is
`this.schema` as given, and `schema` always becomes the promise
`proc.resolve(this.schema, {type: 'schema'})`. -/
def Resource.new (env : Env) (spec : Spec) : Resource :=
  match getProp spec.backend "ref" with
  | .error e => Resource.failed spec e
  | .ok ref =>
    let backendKey := (ref.or spec.backend).or spec.backendKey
    match getProp spec.backend "config" with
    | .error e => Resource.failed spec e
    | .ok config =>
      { ready := .ok (), key := spec.key, path := spec.path,
        backendKey := backendKey,
        backendConfig := config.or (.obj []),
        backend := (env.resolveBackend backendKey).map (fun deps => deps backendKey.toStr),
        schemaKey := spec.schema,
        schema := some (env.resolveSchema spec.schema),
        pre := spec.pre, post := spec.post, handlers := spec.handlers }

/-- The middleware of a route, by name. -/
inductive Stage where
  | bodyParserJson
  | setup (opkey : String)
  | validatePayload (opkey : String)
  | handle
  | render
  | handleErrors
  deriving DecidableEq

/-- An endpoint descriptor `{key, method, path, handler}`. -/
structure Endpoint where
  key : JsVal
  method : String
  path : String
  handler : List (List Stage)

/-- The method `setupOperation` (lines 149-165): the body parser, the
middleware that builds the operation and, when `targetResource.schema` is
truthy, the payload validation. -/
def Resource.setupOperation (r : Resource) (opkey : String) : M (List Stage) := do
  logger .debug "Setting up operation %s middleware"
  pure ([Stage.bodyParserJson, Stage.setup opkey] ++
    (if r.schema.isSome then [Stage.validatePayload opkey] else []))

/-- The getter `endpoints` (lines 114-148). -/
def Resource.endpoints (r : Resource) : M (List Endpoint) := do
  M.await r.ready
  let segment := (r.path.or r.key).toStr
  let read ← r.setupOperation "read"
  let list ← r.setupOperation "list"
  let create ← r.setupOperation "create"
  let update ← r.setupOperation "update"
  let patch ← r.setupOperation "patch"
  let remove ← r.setupOperation "remove"
  pure [
    { key := r.key, method := "get", path := "/" ++ segment ++ "/:id",
      handler := [read, [.handle], [.render], [.handleErrors]] },
    { key := r.key, method := "get", path := "/" ++ segment,
      handler := [list, [.handle], [.render], [.handleErrors]] },
    { key := r.key, method := "post", path := "/" ++ segment,
      handler := [create, [.handle], [.render], [.handleErrors]] },
    { key := r.key, method := "put", path := "/" ++ segment ++ "/:id",
      handler := [update, [.handle], [.render], [.handleErrors]] },
    { key := r.key, method := "patch", path := "/" ++ segment ++ "/:id",
      handler := [patch, [.handle], [.render], [.handleErrors]] },
    { key := r.key, method := "delete", path := "/" ++ segment ++ "/:id",
      handler := [remove, [.handle], [.render], [.handleErrors]] }]

/-- The middleware returned by `renderOperation` (lines 166-182), applied to
the operation `req.op` resolves to. -/
def Resource.renderOperation (r : Resource) (operation : Operation) : M Unit :=
  match operation.result with
  | .unset => M.send .empty
  | .promise p => do
    let result ← M.await p
    if result.truthy then
      M.send (.json result)
    else
      M.setStatus (.num 404)
      M.send (.raw (.str (r.key.toStr ++ "." ++ operation.id.toStr ++ ".not.found")))
  | .value v =>
    if v.truthy then
      M.fail (typeError "operation.result.then is not a function")
    else
      M.send .empty

/-- The middleware returned by `handleErrors` (lines 183-195). -/
def Resource.handleErrors (err : JsVal) : M Unit := do
  if err.truthy then
    let statusCode ← M.await (getProp err "statusCode")
    if !(statusCode.isNum 400) then
      logger .error "rest-error:"
  let statusCode ← M.await (getProp err "statusCode")
  if statusCode.truthy then
    M.setStatus statusCode
    let message ← M.await (getProp err "message")
    let details ← M.await (getProp err "details")
    M.send (.json (.obj [("message", message), ("details", details)]))
  else
    M.setStatus (.num 500)
    let message ← M.await (getProp err "message")
    M.send (.raw (message.or (.str "general.error")))

/-- The function `sortBy` of `lodash.sortby`, an external library: a stable
sort in ascending order of the value of the iteratee. -/
def sortBy {α : Type} (iteratee : α → Int) (collection : List α) : List α :=
  collection.insertionSort (fun a b => iteratee a ≤ iteratee b)

/-- The function `Promise.reduce` of Bluebird, an external library, with an
initial value: the items are folded in order, each step awaited before the
next begins, and a rejected step rejects the whole. -/
def promiseReduce {α β : Type} (reducer : α → β → M α) : List β → α → M α
  | [], acc => pure acc
  | item :: rest, acc => do
    let next ← reducer acc item
    promiseReduce reducer rest next

/-- The iteratee `hook => hook.priority || 5`: an unset priority and the
priority 0 are both falsy. -/
def Hook.sortKey (hook : Hook) : Int :=
  match hook.priority with
  | none => 5
  | some p => if p = 0 then 5 else p

/-- The property `this[phase]`. -/
def Resource.phaseHooks (r : Resource) : Phase → Option (List Hook)
  | .pre => r.pre
  | .post => r.post

/-- The hooks that `executeHooks` runs, in the order it runs them:
`sortBy(phaseHooks.filter(hook => hook.op === operation.key), hook => hook.priority || 5)`
with `phaseHooks = this[phase] || []`. -/
def Resource.scheduledHooks (r : Resource) (phase : Phase) (operation : Operation) : List Hook :=
  sortBy Hook.sortKey (((r.phaseHooks phase).getD []).filter (fun hook => hook.op.isStr operation.key))

/-- The method `executeHooks` (lines 213-219). -/
def Resource.executeHooks (r : Resource) (phase : Phase) (operation : Operation) : M Operation := do
  M.await r.ready
  promiseReduce (fun operation hook => hook.fn operation) (r.scheduledHooks phase operation) operation

/-- The method `executeHandler` (lines 220-229). -/
def Resource.executeHandler (r : Resource) (operation : Operation)
    (defaultHandler : Operation → M Operation) : M Operation := do
  M.await r.ready
  match r.handlers.bind (fun handlers => handlers operation.key) with
  | some handler => handler operation defaultHandler
  | none => defaultHandler operation

/-- The method `read` (lines 230-234). -/
def Resource.read (r : Resource) (operation : Operation) : M Operation := do
  logger .debug "Handling read %s operation"
  let op ← r.executeHooks .pre operation
  let operation ← r.executeHandler op (doRead r)
  r.executeHooks .post operation

/-- The method `list` (lines 235-239). -/
def Resource.list (r : Resource) (operation : Operation) : M Operation := do
  logger .debug "Handling list %s operation"
  let op ← r.executeHooks .pre operation
  let operation ← r.executeHandler op (doList r)
  r.executeHooks .post operation

/-- The method `create` (lines 240-244). -/
def Resource.create (env : Env) (r : Resource) (operation : Operation) : M Operation := do
  logger .debug "Handling create %s operation"
  let op ← r.executeHooks .pre operation
  let operation ← r.executeHandler op (doCreate env r)
  r.executeHooks .post operation

/-- The method `update` (lines 245-249). -/
def Resource.update (r : Resource) (operation : Operation) : M Operation := do
  logger .debug "Handling update %s operation"
  let op ← r.executeHooks .pre operation
  let operation ← r.executeHandler op (doUpdate r)
  r.executeHooks .post operation

/-- The method `patch` (lines 250-254). -/
def Resource.patch (r : Resource) (operation : Operation) : M Operation := do
  logger .debug "Handling patch %s operation"
  let op ← r.executeHooks .pre operation
  let operation ← r.executeHandler op (doPatch r)
  r.executeHooks .post operation

/-- The method `remove` (lines 255-259). -/
def Resource.remove (r : Resource) (operation : Operation) : M Operation := do
  logger .debug "Handling remove %s operation"
  let op ← r.executeHooks .pre operation
  let operation ← r.executeHandler op (doRemove r)
  r.executeHooks .post operation

/-! ## Predicates used in the statements -/

/-- The computation leaves the response handle as it found it. -/
def M.KeepsRes {α : Type} (m : M α) : Prop := ∀ w : World, (m w).2.res = w.res

/-- The method `method`, whose first step logs `entry`, is the three-stage
composition around the default handler `defaultHandler`: its outcome is that
of the `post` hooks applied to what the handler returned for what the `pre`
hooks returned; a failure of the `pre` hooks is the outcome of the method, in
the world the hooks failed in; a failure of the handler is the outcome of the
method, in the world the handler failed in. -/
def Resource.Staged (r : Resource) (entry : String) (defaultHandler : Operation → M Operation)
    (method : Operation → M Operation) : Prop :=
  ∀ (operation : Operation) (w : World),
    method operation w
      = M.andThen (r.executeHooks .pre operation)
          (fun op => M.andThen (r.executeHandler op defaultHandler)
            (fun handled => r.executeHooks .post handled))
          { res := w.res, trace := w.trace ++ [.log .debug entry] }
    ∧ (∀ (e : JsVal) (w1 : World),
        r.executeHooks .pre operation { res := w.res, trace := w.trace ++ [.log .debug entry] }
          = (.error e, w1) →
        method operation w = (.error e, w1))
    ∧ (∀ (op : Operation) (w1 : World) (e : JsVal) (w2 : World),
        r.executeHooks .pre operation { res := w.res, trace := w.trace ++ [.log .debug entry] }
          = (.ok op, w1) →
        r.executeHandler op defaultHandler w1 = (.error e, w2) →
        method operation w = (.error e, w2))
    ∧ (∀ (op : Operation) (w1 : World) (handled : Operation) (w2 : World),
        r.executeHooks .pre operation { res := w.res, trace := w.trace ++ [.log .debug entry] }
          = (.ok op, w1) →
        r.executeHandler op defaultHandler w1 = (.ok handled, w2) →
        method operation w = r.executeHooks .post handled w2)

/-! ## Sample data of the scenarios -/

/-- A backend whose six methods all resolve to `v`. -/
def Backend.const (v : JsVal) : Backend :=
  { read := fun _ => .ok v, list := fun _ => .ok v, create := fun _ => .ok v,
    update := fun _ => .ok v, patch := fun _ => .ok v, remove := fun _ => .ok v }

/-- An operation of type `key` on the instance `id`, with no payload and no
result yet. -/
def Operation.fresh (key : String) (id : JsVal) : Operation :=
  { key := key, id := id, payload := .undefined, result := .unset }

/-- An initialised resource `widgets` without hooks or overrides whose backend
resolves every call to `v`. -/
def widgets (v : JsVal) : Resource :=
  { ready := .ok (), key := .str "widgets", path := .undefined,
    backendKey := .str "db", backendConfig := .obj [],
    backend := .ok (some (Backend.const v)),
    schemaKey := .undefined, schema := some (.ok (.obj [])),
    pre := none, post := none, handlers := none }

/-- The error of scenario D, `{statusCode: 400, message: "bad"}`. -/
def badRequest : JsVal := .obj [("statusCode", .num 400), ("message", .str "bad")]

/-- The upper-case form of a string, for the case-insensitive comparison of
HTTP methods. -/
def upperCase (s : String) : String := String.mk (s.data.map Char.toUpper)

/-- The six operation types, in the order of the endpoint descriptors. -/
def verbs : List String := ["read", "list", "create", "update", "patch", "remove"]

/-- A handler override that answers from a cache and never calls the default
handler it is given. -/
def cachedHandler : Handler :=
  fun operation _ => pure { operation with result := .promise (.ok (.str "cached")) }

/-- The resource `widgets` with the override `cachedHandler` declared for
`read` and for no other operation type. -/
def widgetsCached (v : JsVal) : Resource :=
  { widgets v with
    handlers := some (fun key => if key == "read" then some cachedHandler else none) }

/-- A validator that accepts every value (`accept = true`) or none. -/
def Validator.const (accept : Bool) : Validator :=
  { validate := fun _ => .bool accept, errors := if accept then .null else .arr [.str "invalid"] }

/-- Collaborators that resolve every backend name to a backend answering `v`,
every schema reference to the mapping `schemas`, and every schema definition
to a validator that accepts everything or nothing. -/
def Env.sample (v : JsVal) (schemas : JsVal) (accept : Bool) : Env :=
  { resolveBackend := fun _ => .ok (fun _ => some (Backend.const v)),
    resolveSchema := fun _ => .ok schemas,
    jsonSchema := fun _ => .ok (Validator.const accept) }

/-- A resource description `widgets` with the given backend and schema and
neither hooks nor overrides. -/
def Spec.widgets (backend schema : JsVal) : Spec :=
  { key := .str "widgets", path := .undefined, backend := backend, backendKey := .undefined,
    schema := schema, pre := none, post := none, handlers := none }

/-- The record `{id: 1, name: "x"}` of scenario A. -/
def recordX : JsVal := .obj [("id", .num 1), ("name", .str "x")]

/-- The acknowledgement of scenario A,
`{result: {ok: true}, insertedCount: 1, ops: [{id: 1, name: "x"}]}`. -/
def insertedX : JsVal :=
  .obj [("result", .obj [("ok", .bool true)]), ("insertedCount", .num 1), ("ops", .arr [recordX])]

/-- The acknowledgement of a MongoDB-style driver, whose `ok` is the number 1:
`{result: {ok: 1, n: 1}, insertedCount: 1, ops: [{id: 1, name: "x"}]}`. -/
def insertedOne : JsVal :=
  .obj [("result", .obj [("ok", .num 1), ("n", .num 1)]), ("insertedCount", .num 1),
    ("ops", .arr [recordX])]

/-- The acknowledgement of scenario B, `{result: {ok: false}}`. -/
def refused : JsVal := .obj [("result", .obj [("ok", .bool false)])]

/-- A hook for the operation type `op` that writes the mark `tag` to the trace
and returns the operation with its payload replaced by `tag`. -/
def markHook (tag : Nat) (op : String) (priority : Option Int) : Hook :=
  { op := .str op, priority := priority,
    fn := fun operation => do
      M.emit (.mark tag)
      pure { operation with payload := .num tag } }

/-- The resource `widgets` with two `pre` hooks for `create`, declared in this
order: hook 1 with priority 0 and hook 2 with priority 3. -/
def widgetsZeroFirst : Resource :=
  { widgets .null with
    pre := some [markHook 1 "create" (some 0), markHook 2 "create" (some 3)] }

/-- The resource `widgets` with four `pre` hooks, declared in this order: hook
1 for `create` without priority, hook 2 for `read` with priority 1, hook 3 for
`create` with priority 1 and hook 4 for `create` without priority. -/
def widgetsHooked : Resource :=
  { widgets .null with
    pre := some [markHook 1 "create" none, markHook 2 "read" (some 1),
      markHook 3 "create" (some 1), markHook 4 "create" none] }

/-- A hook for the operation type `op` that writes the mark `tag` and then
throws `e`. -/
def failHook (tag : Nat) (op : String) (e : JsVal) : Hook :=
  { op := .str op, priority := none,
    fn := fun _ => do
      M.emit (.mark tag)
      M.fail e }

/-- The resource `widgets` with a `pre` hook 1 and a `post` hook 2 for `read`,
and a `pre` hook 3 that rejects every `create` with the error of scenario D
and a `post` hook 4 for `create`. -/
def widgetsGuarded : Resource :=
  { widgets (.str "found") with
    pre := some [markHook 1 "read" none, failHook 3 "create" badRequest],
    post := some [markHook 2 "read" none, markHook 4 "create" none] }

/-- The resource built by the constructor from a description that declares
the backend `"db"` and the schema `"widget"`; the backend acknowledges every
create as in scenario A and the validator of the schema accepts every record
or none. -/
def widgetsWithSchema (accept : Bool) : Resource :=
  Resource.new (Env.sample insertedX (.obj [("widget", .obj [])]) accept)
    (Spec.widgets (.str "db") (.str "widget"))

/-- The resource built by the constructor from a description that declares
the backend `"db"` and no schema. -/
def widgetsNoSchema (accept : Bool) : Resource :=
  Resource.new (Env.sample insertedX (.obj []) accept) (Spec.widgets (.str "db") .undefined)

/-- The resource built by the constructor from a description whose schema is
given as `{ref: "widget", config: {}}`. -/
def widgetsSchemaRef : Resource :=
  Resource.new (Env.sample .null (.obj []) true)
    (Spec.widgets (.str "db") (.obj [("ref", .str "widget"), ("config", .obj [])]))

/-! ## Basic facts about the monad -/

theorem M.bind_eq {α β : Type} (m : M α) (f : α → M β) : (m >>= f) = M.andThen m f := rfl

theorem M.pure_eq {α : Type} (a : α) : (pure a : M α) = M.ret a := rfl

theorem M.andThen_ok {α β : Type} (m : M α) (f : α → M β) (w w' : World) (a : α)
    (h : m w = (.ok a, w')) : M.andThen m f w = f a w' := by
  simp [M.andThen, h]

theorem M.andThen_error {α β : Type} (m : M α) (f : α → M β) (w w' : World) (e : JsVal)
    (h : m w = (.error e, w')) : M.andThen m f w = (.error e, w') := by
  simp [M.andThen, h]

theorem JsVal.truthy_eq_false_iff (v : JsVal) :
    v.truthy = false ↔
      v = .undefined ∨ v = .null ∨ v = .bool false ∨ v = .num 0 ∨ v = .str "" := by
  cases v <;> simp [JsVal.truthy]

/-! ## The render stage (C5) -/

/-- C5: the render stage ends the response with no body and no status change
when `operation.result` was never set; sends the resolved value as the JSON
body with no status change when it is truthy; and answers status 404 with the
body `<resource.key>.<operation.id>.not.found` when it is falsy, the falsy
values being exactly `undefined`, `null`, `false`, `0` and the empty string.
Nothing is logged in any of the three cases. -/
theorem renderOperation_outcome (r : Resource) (operation : Operation) (w : World) :
    (operation.result = .unset →
      Resource.renderOperation r operation w
        = (.ok (), { res := { statusCode := w.res.statusCode, sent := some .empty },
                     trace := w.trace }))
    ∧ (∀ v : JsVal, operation.result = .promise (.ok v) → v.truthy = true →
      Resource.renderOperation r operation w
        = (.ok (), { res := { statusCode := w.res.statusCode, sent := some (.json v) },
                     trace := w.trace }))
    ∧ (∀ v : JsVal, operation.result = .promise (.ok v) → v.truthy = false →
      Resource.renderOperation r operation w
        = (.ok (), { res := { statusCode := .num 404,
                              sent := some (.raw (.str
                                (r.key.toStr ++ "." ++ operation.id.toStr ++ ".not.found"))) },
                     trace := w.trace }))
    ∧ (∀ v : JsVal, v.truthy = false ↔
        v = .undefined ∨ v = .null ∨ v = .bool false ∨ v = .num 0 ∨ v = .str "") := by
  refine ⟨?_, ?_, ?_, JsVal.truthy_eq_false_iff⟩
  · intro h
    simp [Resource.renderOperation, h, M.send]
  · intro v h hv
    simp [Resource.renderOperation, h, hv, M.bind_eq, M.andThen, M.await, M.send]
  · intro v h hv
    simp [Resource.renderOperation, h, hv, M.bind_eq, M.andThen, M.await, M.send,
      M.setStatus]

/-- Scenario C: `GET /widgets/7` whose backend read resolved to `null` is
answered with status 404 and the body `widgets.7.not.found`. -/
theorem renderOperation_outcome_witness :
    Resource.renderOperation (widgets .null)
        { Operation.fresh "read" (.str "7") with result := .promise (.ok .null) } World.fresh
      = (.ok (), { res := { statusCode := .num 404,
                            sent := some (.raw (.str "widgets.7.not.found")) },
                   trace := [] }) :=
  (renderOperation_outcome (widgets .null)
    { Operation.fresh "read" (.str "7") with result := .promise (.ok .null) }
    World.fresh).2.2.1 .null rfl rfl

/-! ## The error stage (C6) -/

theorem getProp_of_truthy (v : JsVal) (k : String) (h : v.truthy = true) :
    ∃ x, getProp v k = .ok x := by
  cases v <;> simp [getProp, JsVal.truthy] at h ⊢

theorem JsVal.isNum_eq_true_iff (v : JsVal) (n : Int) : v.isNum n = true ↔ v = .num n := by
  cases v <;> simp [JsVal.isNum]

/-- C6: for an error passed to the error stage (a truthy value, with
`statusCode`, `message` and `details` the values its properties read as): the
stage itself does not fail; when `statusCode` is truthy the response has
exactly that status and the JSON body `{message, details}`; otherwise the
status is 500 and the body is the message when it is truthy and the literal
`general.error` when it is not; and the error-level entry `rest-error:` is
logged when `statusCode` is not the number 400 and nothing is logged when it
is. -/
theorem handleErrors_outcome (err : JsVal) (w : World) (herr : err.truthy = true) :
    ∃ statusCode message details : JsVal,
      getProp err "statusCode" = .ok statusCode ∧
      getProp err "message" = .ok message ∧
      getProp err "details" = .ok details ∧
      (Resource.handleErrors err w).1 = .ok () ∧
      (statusCode.truthy = true → (Resource.handleErrors err w).2.res
        = { statusCode := statusCode,
            sent := some (.json (.obj [("message", message), ("details", details)])) }) ∧
      (statusCode.truthy = false → message.truthy = true → (Resource.handleErrors err w).2.res
        = { statusCode := .num 500, sent := some (.raw message) }) ∧
      (statusCode.truthy = false → message.truthy = false → (Resource.handleErrors err w).2.res
        = { statusCode := .num 500, sent := some (.raw (.str "general.error")) }) ∧
      (statusCode ≠ .num 400 →
        (Resource.handleErrors err w).2.trace = w.trace ++ [.log .error "rest-error:"]) ∧
      (statusCode = .num 400 → (Resource.handleErrors err w).2.trace = w.trace) := by
  obtain ⟨sc, hsc⟩ := getProp_of_truthy err "statusCode" herr
  obtain ⟨msg, hmsg⟩ := getProp_of_truthy err "message" herr
  obtain ⟨det, hdet⟩ := getProp_of_truthy err "details" herr
  refine ⟨sc, msg, det, hsc, hmsg, hdet, ?_⟩
  by_cases h400 : sc = .num 400
  · subst h400
    have h1 : (JsVal.num 400).isNum 400 = true := rfl
    have h2 : (JsVal.num 400).truthy = true := rfl
    simp [Resource.handleErrors, herr, hsc, hmsg, hdet, h1, h2, M.bind_eq, M.pure_eq,
      M.andThen, M.await, M.ret, M.setStatus, M.send]
  · have hn : sc.isNum 400 = false := by
      cases hb : sc.isNum 400
      · rfl
      · exact absurd ((JsVal.isNum_eq_true_iff sc 400).1 hb) h400
    cases ht : sc.truthy <;> cases hm : msg.truthy <;>
      simp [Resource.handleErrors, herr, hsc, hmsg, hdet, hn, ht, hm, h400, M.bind_eq, M.pure_eq,
        M.andThen, M.await, M.ret, M.setStatus, M.send, logger, M.emit, JsVal.or]

/-- Scenario D: the error `{statusCode: 400, message: "bad"}` is answered with
status 400 and the body `{message: "bad", details: undefined}`, and nothing is
logged. -/
theorem handleErrors_outcome_witness :
    badRequest.truthy = true ∧
    (Resource.handleErrors badRequest World.fresh).1 = .ok () ∧
    (Resource.handleErrors badRequest World.fresh).2.res
      = { statusCode := .num 400,
          sent := some (.json (.obj [("message", .str "bad"), ("details", .undefined)])) } ∧
    (Resource.handleErrors badRequest World.fresh).2.trace = [] := by
  obtain ⟨sc, m, d, hsc, hm, hd, hok, hT, _, _, _, hquiet⟩ :=
    handleErrors_outcome badRequest World.fresh rfl
  have e1 : sc = .num 400 := by
    have : getProp badRequest "statusCode" = .ok (.num 400) := rfl
    rw [this] at hsc
    exact (Except.ok.inj hsc).symm
  have e2 : m = .str "bad" := by
    have : getProp badRequest "message" = .ok (.str "bad") := rfl
    rw [this] at hm
    exact (Except.ok.inj hm).symm
  have e3 : d = .undefined := by
    have : getProp badRequest "details" = .ok .undefined := rfl
    rw [this] at hd
    exact (Except.ok.inj hd).symm
  subst e1 e2 e3
  exact ⟨rfl, hok, hT rfl, hquiet rfl⟩

/-! ## The endpoint descriptors (C7) -/

theorem endpoints_run (r : Resource) (w : World) (hready : r.ready = .ok ()) :
    (r.endpoints w).1 = .ok (
      [ { key := r.key, method := "get", path := "/" ++ (r.path.or r.key).toStr ++ "/:id",
          handler := [[Stage.bodyParserJson, Stage.setup "read"] ++
            (if r.schema.isSome then [Stage.validatePayload "read"] else []),
            [.handle], [.render], [.handleErrors]] },
        { key := r.key, method := "get", path := "/" ++ (r.path.or r.key).toStr,
          handler := [[Stage.bodyParserJson, Stage.setup "list"] ++
            (if r.schema.isSome then [Stage.validatePayload "list"] else []),
            [.handle], [.render], [.handleErrors]] },
        { key := r.key, method := "post", path := "/" ++ (r.path.or r.key).toStr,
          handler := [[Stage.bodyParserJson, Stage.setup "create"] ++
            (if r.schema.isSome then [Stage.validatePayload "create"] else []),
            [.handle], [.render], [.handleErrors]] },
        { key := r.key, method := "put", path := "/" ++ (r.path.or r.key).toStr ++ "/:id",
          handler := [[Stage.bodyParserJson, Stage.setup "update"] ++
            (if r.schema.isSome then [Stage.validatePayload "update"] else []),
            [.handle], [.render], [.handleErrors]] },
        { key := r.key, method := "patch", path := "/" ++ (r.path.or r.key).toStr ++ "/:id",
          handler := [[Stage.bodyParserJson, Stage.setup "patch"] ++
            (if r.schema.isSome then [Stage.validatePayload "patch"] else []),
            [.handle], [.render], [.handleErrors]] },
        { key := r.key, method := "delete", path := "/" ++ (r.path.or r.key).toStr ++ "/:id",
          handler := [[Stage.bodyParserJson, Stage.setup "remove"] ++
            (if r.schema.isSome then [Stage.validatePayload "remove"] else []),
            [.handle], [.render], [.handleErrors]] } ] : List Endpoint) := by
  simp [Resource.endpoints, Resource.setupOperation, hready, M.bind_eq, M.pure_eq, M.andThen,
    M.await, M.ret, logger, M.emit]

/-- C7: for an initialised resource, `endpoints` resolves to exactly six
descriptors, in the order read, list, create, update, patch, remove (the
operation type each one sets up), each with the key of the resource, with the
methods GET, GET, POST, PUT, PATCH, DELETE up to case, and with the paths
`/P/:id`, `/P`, `/P`, `/P/:id`, `/P/:id`, `/P/:id`, where `P` is the string
form of `path` when `path` is set (truthy) and of `key` otherwise. -/
theorem endpoints_descriptors (r : Resource) (w : World) (hready : r.ready = .ok ()) :
    ∃ (eps : List Endpoint) (P : String),
      (r.endpoints w).1 = .ok eps ∧
      eps.length = 6 ∧
      eps.map (fun e => e.key) = List.replicate 6 r.key ∧
      eps.map (fun e => upperCase e.method) = ["GET", "GET", "POST", "PUT", "PATCH", "DELETE"] ∧
      eps.map (fun e => e.path)
        = ["/" ++ P ++ "/:id", "/" ++ P, "/" ++ P, "/" ++ P ++ "/:id", "/" ++ P ++ "/:id",
           "/" ++ P ++ "/:id"] ∧
      eps.map (fun e => e.handler)
        = verbs.map (fun verb =>
            [[Stage.bodyParserJson, Stage.setup verb] ++
               (if r.schema.isSome then [Stage.validatePayload verb] else []),
             [Stage.handle], [Stage.render], [Stage.handleErrors]]) ∧
      (r.path.truthy = true → P = r.path.toStr) ∧
      (r.path.truthy = false → P = r.key.toStr) := by
  have hupper : [upperCase "get", upperCase "get", upperCase "post", upperCase "put",
      upperCase "patch", upperCase "delete"] = ["GET", "GET", "POST", "PUT", "PATCH", "DELETE"] := by
    decide
  refine ⟨_, (r.path.or r.key).toStr, endpoints_run r w hready, rfl, rfl, hupper, rfl, rfl,
    ?_, ?_⟩
  · intro h
    simp [JsVal.or, h]
  · intro h
    simp [JsVal.or, h]

/-- The resource `widgets`, which sets no `path`, exposes `GET /widgets/:id`,
`GET /widgets`, `POST /widgets`, `PUT /widgets/:id`, `PATCH /widgets/:id` and
`DELETE /widgets/:id`. -/
theorem endpoints_descriptors_witness :
    (widgets .null).ready = .ok () ∧
    ∃ eps : List Endpoint,
      ((widgets .null).endpoints World.fresh).1 = .ok eps ∧
      eps.map (fun e => (upperCase e.method, e.path))
        = [("GET", "/widgets/:id"), ("GET", "/widgets"), ("POST", "/widgets"),
           ("PUT", "/widgets/:id"), ("PATCH", "/widgets/:id"), ("DELETE", "/widgets/:id")] := by
  obtain ⟨eps, P, hrun, hlen, _, hmeth, hpath, _, _, hkey⟩ :=
    endpoints_descriptors (widgets .null) World.fresh rfl
  have hP : P = "widgets" := hkey rfl
  subst hP
  refine ⟨rfl, eps, hrun, ?_⟩
  have hzip : eps.map (fun e => (upperCase e.method, e.path))
      = (eps.map (fun e => upperCase e.method)).zip (eps.map (fun e => e.path)) := by
    simp [List.zip_map']
  rw [hzip, hmeth, hpath]
  decide

/-! ## Handler override and default (C8) -/

/-- C8: on an initialised resource `executeHandler` returns
`handler(operation, defaultHandler)` when a custom handler is declared under
`operation.key`, and `defaultHandler(operation)` when the resource has no
`handlers` mapping or no entry for that operation type; an override that does
not use the default handler it is given yields its own outcome whatever that
default handler is, so that nothing the default handler does (the backend call
included) takes place. -/
theorem executeHandler_dispatch (r : Resource) (operation : Operation)
    (defaultHandler : Operation → M Operation) (w : World) (hready : r.ready = .ok ()) :
    (∀ (handlers : String → Option Handler) (handler : Handler),
      r.handlers = some handlers → handlers operation.key = some handler →
      r.executeHandler operation defaultHandler w = handler operation defaultHandler w)
    ∧ (r.handlers = none →
      r.executeHandler operation defaultHandler w = defaultHandler operation w)
    ∧ (∀ handlers : String → Option Handler,
      r.handlers = some handlers → handlers operation.key = none →
      r.executeHandler operation defaultHandler w = defaultHandler operation w)
    ∧ (∀ (handlers : String → Option Handler) (override : Operation → M Operation),
      r.handlers = some handlers →
      handlers operation.key = some (fun op _ => override op) →
      ∀ other : Operation → M Operation,
        r.executeHandler operation defaultHandler w = override operation w ∧
        r.executeHandler operation other w = override operation w) := by
  refine ⟨?_, ?_, ?_, ?_⟩
  · intro handlers handler h1 h2
    simp [Resource.executeHandler, hready, h1, h2, M.bind_eq, M.andThen, M.await]
  · intro h1
    simp [Resource.executeHandler, hready, h1, M.bind_eq, M.andThen, M.await]
  · intro handlers h1 h2
    simp [Resource.executeHandler, hready, h1, h2, M.bind_eq, M.andThen, M.await]
  · intro handlers override h1 h2 other
    simp [Resource.executeHandler, hready, h1, h2, M.bind_eq, M.andThen, M.await]

/-- With the override `cachedHandler` declared for `read`, executing the
handler with the default `doRead` leaves the trace empty (the backend is not
called) and yields the cached result. -/
theorem executeHandler_dispatch_witness :
    (widgetsCached .null).ready = .ok () ∧
    ((widgetsCached .null).executeHandler (Operation.fresh "read" (.str "7"))
        (doRead (widgetsCached .null)) World.fresh).2.trace = [] := by
  have h := (executeHandler_dispatch (widgetsCached .null) (Operation.fresh "read" (.str "7"))
    (doRead (widgetsCached .null)) World.fresh rfl).1 _ cachedHandler rfl rfl
  exact ⟨rfl, by rw [h]; rfl⟩

/-! ## Initialisation (C10) -/

/-- C10, counterexample: a schema given as `{ref: "widget", config: {}}` is
not normalised: after initialisation `schemaKey` is that whole object, not the
identifier `"widget"`, the reference handed to `proc.resolve` is that object
too, and the name looked up among the resolved schemas is its string form
`[object Object]`. -/
theorem schemaKey_ref_form_kept :
    widgetsSchemaRef.ready = .ok () ∧
    widgetsSchemaRef.schemaKey = .obj [("ref", .str "widget"), ("config", .obj [])] ∧
    widgetsSchemaRef.schemaKey ≠ .str "widget" ∧
    widgetsSchemaRef.schemaKey.toStr = "[object Object]" := by
  refine ⟨rfl, rfl, ?_, rfl⟩
  intro h
  cases h

/-- C10, amended: initialisation normalises both forms of the backend and
keeps the schema as given.  For every identifier `k` (a non-empty string) and
configuration object `c`: a backend given directly as `k` yields
`backendKey = k` and `backendConfig = {}`, a backend given as
`{ref: k, config: c}` yields `backendKey = k` and `backendConfig = c`, and in
both forms the backend is the component named `k` among those resolved for
`k`; whenever initialisation succeeds `schemaKey` is the schema exactly as
given, so a schema given directly as `k` yields `schemaKey = k`, and the
schema promise is `proc.resolve` of that same value. -/
theorem init_normalises_backend (env : Env) (spec : Spec) (k : String)
    (c : List (String × JsVal)) (hk : k ≠ "") :
    ((Resource.new env { spec with backend := .str k }).ready = .ok () ∧
      (Resource.new env { spec with backend := .str k }).backendKey = .str k ∧
      (Resource.new env { spec with backend := .str k }).backendConfig = .obj [] ∧
      (Resource.new env { spec with backend := .str k }).backend
        = (env.resolveBackend (.str k)).map (fun deps => deps k))
    ∧ ((Resource.new env { spec with backend := .obj [("ref", .str k), ("config", .obj c)] }).ready
        = .ok () ∧
      (Resource.new env { spec with backend := .obj [("ref", .str k), ("config", .obj c)] }).backendKey
        = .str k ∧
      (Resource.new env
        { spec with backend := .obj [("ref", .str k), ("config", .obj c)] }).backendConfig
        = .obj c ∧
      (Resource.new env { spec with backend := .obj [("ref", .str k), ("config", .obj c)] }).backend
        = (env.resolveBackend (.str k)).map (fun deps => deps k))
    ∧ ((Resource.new env spec).ready = .ok () →
        (Resource.new env spec).schemaKey = spec.schema ∧
        (Resource.new env spec).schema = some (env.resolveSchema spec.schema))
    ∧ ((Resource.new env { spec with backend := .str k, schema := .str k }).schemaKey = .str k ∧
       (Resource.new env { spec with backend := .str k, schema := .str k }).schema
        = some (env.resolveSchema (.str k))) := by
  have hk' : (k == "") = false := by simpa using hk
  refine ⟨?_, ?_, ?_, ?_⟩
  · simp [Resource.new, getProp, JsVal.or, JsVal.truthy, JsVal.toStr, hk']
  · simp [Resource.new, getProp, JsVal.lookup, JsVal.or, JsVal.truthy, JsVal.toStr, hk']
  · intro h
    cases hb : spec.backend <;>
      simp [Resource.new, Resource.failed, getProp, hb] at h ⊢
  · simp [Resource.new, getProp, JsVal.or, JsVal.truthy, JsVal.toStr, hk']

/-- The backend `"db"` and the backend `{ref: "db", config: {pool: 4}}` both
yield `backendKey = "db"`. -/
theorem init_normalises_backend_witness :
    "db" ≠ "" ∧
    (Resource.new (Env.sample .null (.obj []) true)
      (Spec.widgets (.str "db") .undefined)).backendKey = .str "db" ∧
    (Resource.new (Env.sample .null (.obj []) true)
      (Spec.widgets (.obj [("ref", .str "db"), ("config", .obj [("pool", .num 4)])])
        .undefined)).backendKey = .str "db" :=
  ⟨by decide,
   (init_normalises_backend (Env.sample .null (.obj []) true)
      (Spec.widgets (.str "db") .undefined) "db" [("pool", .num 4)] (by decide)).1.2.1,
   (init_normalises_backend (Env.sample .null (.obj []) true)
      (Spec.widgets (.str "db") .undefined) "db" [("pool", .num 4)] (by decide)).2.1.2.1⟩

/-! ## The default create handler (C3, C4) -/

theorem M.keepsRes_andThen {α β : Type} (m : M α) (f : α → M β) (hm : m.KeepsRes)
    (hf : ∀ a, (f a).KeepsRes) : (M.andThen m f).KeepsRes := by
  intro w
  unfold M.andThen
  have h1 := hm w
  rcases hmw : m w with ⟨out, w'⟩
  rw [hmw] at h1
  cases out with
  | error e => exact h1
  | ok a => exact (hf a w').trans h1

theorem M.keepsRes_ret {α : Type} (a : α) : (M.ret a).KeepsRes := fun _ => rfl

theorem M.keepsRes_fail {α : Type} (e : JsVal) : (M.fail e : M α).KeepsRes := fun _ => rfl

theorem M.keepsRes_await {α : Type} (p : Promise α) : (M.await p).KeepsRes := fun _ => rfl

theorem M.keepsRes_emit (ev : Event) : (M.emit ev).KeepsRes := fun _ => rfl

theorem getSchema_keepsRes (env : Env) (r : Resource) (opkey : String) :
    (r.getSchema env opkey).KeepsRes := by
  unfold Resource.getSchema
  simp only [M.bind_eq]
  refine M.keepsRes_andThen _ _ (M.keepsRes_await _) (fun _ => ?_)
  cases r.schema with
  | none => exact M.keepsRes_fail _
  | some p =>
    exact M.keepsRes_andThen _ _ (M.keepsRes_await _) (fun _ =>
      M.keepsRes_andThen _ _ (M.keepsRes_await _) (fun _ => M.keepsRes_await _))

theorem createSuccess_status (env : Env) (r : Resource) (operation : Operation) (result : JsVal)
    (w : World) : (createSuccess env r operation result w).2.res.statusCode = .num 201 := by
  have tail : ∀ (m : M JsVal), m.KeepsRes →
      ((M.andThen (M.setStatus (.num 201)) (fun _ => m)) w).2.res.statusCode = .num 201 := by
    intro m hm
    simp only [M.andThen, M.setStatus]
    rw [hm]
  unfold createSuccess
  simp only [M.bind_eq, M.pure_eq, logger]
  apply tail
  split
  · refine M.keepsRes_andThen _ _ (M.keepsRes_emit _) (fun _ => ?_)
    refine M.keepsRes_andThen _ _ (getSchema_keepsRes env r _) (fun schema => ?_)
    refine M.keepsRes_andThen _ _ (M.keepsRes_emit _) (fun _ => ?_)
    refine M.keepsRes_andThen _ _ (M.keepsRes_await _) (fun _ => ?_)
    refine M.keepsRes_andThen _ _ (M.keepsRes_await _) (fun inserted => ?_)
    refine M.keepsRes_andThen _ _ (M.keepsRes_emit _) (fun _ => ?_)
    split
    · exact M.keepsRes_andThen _ _ (M.keepsRes_emit _) (fun _ => M.keepsRes_ret _)
    · exact M.keepsRes_fail _
  · exact M.keepsRes_andThen _ _ (M.keepsRes_await _) (fun _ => M.keepsRes_await _)

theorem createResult_run (env : Env) (r : Resource) (operation : Operation) (w : World)
    (b : Backend) (result ack ok insertedCount : JsVal)
    (hbackend : r.backend = .ok (some b)) (hcreate : b.create operation = .ok result)
    (hack : getProp result "result" = .ok ack) (hok : getProp ack "ok" = .ok ok)
    (hcount : getProp result "insertedCount" = .ok insertedCount) :
    createResult env r operation w
      = if ok.truthy && insertedCount.isNum 1 then
          createSuccess env r operation result
            { res := w.res,
              trace := w.trace ++ [.backend "create", .log .debug "create result"] }
        else
          (.ok ack, { res := w.res,
                      trace := w.trace ++ [.backend "create", .log .debug "create result"] }) := by
  cases h1 : ok.truthy <;> cases h2 : insertedCount.isNum 1 <;>
    simp [createResult, callBackend, hbackend, hcreate, hack, hok, hcount, h1, h2, M.bind_eq,
      M.pure_eq, M.andThen, M.await, M.ret, M.emit, logger]

theorem doCreate_run (env : Env) (r : Resource) (operation : Operation) (w : World) :
    doCreate env r operation w
      = match createResult env r operation
            { res := w.res, trace := w.trace ++ [.log .debug "performing a create operation"] } with
        | (.ok v, w') => (.ok { operation with result := .value v }, w')
        | (.error e, w') => (.error e, w') := by
  simp only [doCreate, M.bind_eq, M.andThen, logger, M.emit, M.settle, promiseProps]
  rcases createResult env r operation
      { res := w.res, trace := w.trace ++ [.log .debug "performing a create operation"] }
    with ⟨out, w'⟩
  cases out <;> rfl

/-- C3, counterexample: a backend acknowledgement whose `ok` is the number 1,
not the boolean `true`, is treated as a success all the same: the status is
set to 201 and `operation.result` resolves to the inserted record. -/
theorem doCreate_ok_one_is_success :
    getProp insertedOne "result" = .ok (.obj [("ok", .num 1), ("n", .num 1)]) ∧
    getProp (.obj [("ok", .num 1), ("n", .num 1)]) "ok" = .ok (.num 1) ∧
    JsVal.num 1 ≠ JsVal.bool true ∧
    (doCreate (Env.sample insertedOne (.obj []) true) (widgets insertedOne)
        (Operation.fresh "create" .undefined) World.fresh).2.res.statusCode = .num 201 ∧
    (doCreate (Env.sample insertedOne (.obj []) true) (widgets insertedOne)
        (Operation.fresh "create" .undefined) World.fresh).1
      = .ok { Operation.fresh "create" .undefined with result := .value recordX } := by
  refine ⟨rfl, rfl, ?_, rfl, rfl⟩
  intro h
  cases h

/-- C3, amended: for every backend create result that carries a `result`
object, the default create handler treats it as a success exactly when
`result.result.ok` is truthy and `insertedCount` is the number 1: in that case
the response status is set to 201, and in every other case the response is
left untouched, `operation.result` resolves to the raw `result.result` object
and `doCreate` returns the operation with that value. -/
theorem doCreate_success_test (env : Env) (r : Resource) (operation : Operation) (w : World)
    (b : Backend) (result ack ok insertedCount : JsVal)
    (hbackend : r.backend = .ok (some b)) (hcreate : b.create operation = .ok result)
    (hack : getProp result "result" = .ok ack) (hok : getProp ack "ok" = .ok ok)
    (hcount : getProp result "insertedCount" = .ok insertedCount) :
    ((ok.truthy = true ∧ insertedCount = .num 1) →
      (createResult env r operation w).2.res.statusCode = .num 201 ∧
      (doCreate env r operation w).2.res.statusCode = .num 201)
    ∧ (¬(ok.truthy = true ∧ insertedCount = .num 1) →
      createResult env r operation w
        = (.ok ack, { res := w.res,
                      trace := w.trace ++ [.backend "create", .log .debug "create result"] }) ∧
      doCreate env r operation w
        = (.ok { operation with result := .value ack },
           { res := w.res,
             trace := w.trace ++ [.log .debug "performing a create operation",
               .backend "create", .log .debug "create result"] })) := by
  constructor
  · rintro ⟨h1, h2⟩
    have hc : (ok.truthy && insertedCount.isNum 1) = true := by
      simp [h1, h2, JsVal.isNum]
    constructor
    · rw [createResult_run env r operation w b result ack ok insertedCount hbackend hcreate hack
        hok hcount, hc]
      exact createSuccess_status _ _ _ _ _
    · rw [doCreate_run, createResult_run env r operation _ b result ack ok insertedCount hbackend
        hcreate hack hok hcount, hc]
      have hs := createSuccess_status env r operation result
        { res := w.res,
          trace := w.trace ++ [.log .debug "performing a create operation"]
            ++ [.backend "create", .log .debug "create result"] }
      simp only [if_true]
      simp only [] at hs ⊢
      rcases hrun : createSuccess env r operation result
        { res := w.res,
          trace := w.trace ++ [.log .debug "performing a create operation"]
            ++ [.backend "create", .log .debug "create result"] } with ⟨out, w'⟩
      rw [hrun] at hs
      cases out <;> exact hs
  · intro hno
    have hc : (ok.truthy && insertedCount.isNum 1) = false := by
      cases h1 : ok.truthy
      · rfl
      · cases h2 : insertedCount.isNum 1
        · rfl
        · exact absurd ⟨h1, (JsVal.isNum_eq_true_iff _ _).1 h2⟩ hno
    constructor
    · rw [createResult_run env r operation w b result ack ok insertedCount hbackend hcreate hack
        hok hcount, hc]
      rfl
    · rw [doCreate_run, createResult_run env r operation _ b result ack ok insertedCount hbackend
        hcreate hack hok hcount, hc]
      simp

/-- Scenario B: a backend that answers `{result: {ok: false}}` leaves the
response untouched (status 200, nothing sent) and the operation is returned
with the raw object `{ok: false}` as its result. -/
theorem doCreate_success_test_witness :
    doCreate (Env.sample refused (.obj []) true) (widgets refused)
        (Operation.fresh "create" .undefined) World.fresh
      = (.ok { Operation.fresh "create" .undefined with
                 result := .value (.obj [("ok", .bool false)]) },
         { res := Response.fresh,
           trace := [.log .debug "performing a create operation", .backend "create",
             .log .debug "create result"] }) :=
  ((doCreate_success_test (Env.sample refused (.obj []) true) (widgets refused)
      (Operation.fresh "create" .undefined) World.fresh (Backend.const refused) refused
      (.obj [("ok", .bool false)]) (.bool false) .undefined rfl rfl rfl rfl rfl).2
    (by simp [JsVal.truthy])).2

/-! ## The hook engine (C1, C2) -/

theorem filter_orderedInsert {α : Type} (key : α → Int) (p : α → Bool)
    (hp : ∀ x y, p x = true → p y = true → key x = key y) (a : α) (l : List α) :
    (List.orderedInsert (fun x y => key x ≤ key y) a l).filter p
      = if p a then a :: l.filter p else l.filter p := by
  induction l with
  | nil => cases h : p a <;> simp [h]
  | cons b l ih =>
    by_cases hab : key a ≤ key b
    · cases h : p a <;> simp [List.orderedInsert, hab, h, List.filter_cons]
    · simp only [List.orderedInsert, hab, if_false, List.filter_cons, ih]
      cases ha : p a <;> cases hb : p b <;> simp
      exact absurd (le_of_eq (hp a b ha hb)) hab

theorem filter_sortBy {α : Type} (key : α → Int) (p : α → Bool)
    (hp : ∀ x y, p x = true → p y = true → key x = key y) (l : List α) :
    (sortBy key l).filter p = l.filter p := by
  induction l with
  | nil => rfl
  | cons a l ih =>
    have h := filter_orderedInsert key p hp a (sortBy key l)
    unfold sortBy at h ih ⊢
    rw [List.insertionSort, h, ih]
    cases hpa : p a <;> simp [List.filter_cons, hpa]

theorem sortBy_perm {α : Type} (key : α → Int) (l : List α) : (sortBy key l).Perm l :=
  List.perm_insertionSort _ l

theorem pairwise_orderedInsert {α : Type} (key : α → Int) (a : α) (l : List α)
    (hl : l.Pairwise (fun x y => key x ≤ key y)) :
    (List.orderedInsert (fun x y => key x ≤ key y) a l).Pairwise (fun x y => key x ≤ key y) := by
  induction l with
  | nil => simp
  | cons b l ih =>
    rw [List.pairwise_cons] at hl
    by_cases hab : key a ≤ key b
    · simp only [List.orderedInsert, hab, if_true]
      refine List.pairwise_cons.2 ⟨?_, List.pairwise_cons.2 hl⟩
      intro c hc
      rcases List.mem_cons.1 hc with rfl | hc
      · exact hab
      · exact le_trans hab (hl.1 c hc)
    · simp only [List.orderedInsert, hab, if_false]
      refine List.pairwise_cons.2 ⟨?_, ih hl.2⟩
      intro c hc
      rcases (List.mem_orderedInsert _).1 hc with rfl | hc
      · exact le_of_lt (lt_of_not_le hab)
      · exact hl.1 c hc

theorem sortBy_sorted {α : Type} (key : α → Int) (l : List α) :
    (sortBy key l).Pairwise (fun x y => key x ≤ key y) := by
  induction l with
  | nil => exact List.Pairwise.nil
  | cons a l ih => exact pairwise_orderedInsert key a _ ih

theorem promiseReduce_eq_foldlM {α β : Type} (reducer : α → β → M α) (items : List β) (acc : α) :
    promiseReduce reducer items acc = items.foldlM reducer acc := by
  induction items generalizing acc with
  | nil => rfl
  | cons item rest ih =>
    simp only [promiseReduce, List.foldlM_cons, ih]

theorem executeHooks_run (r : Resource) (phase : Phase) (operation : Operation)
    (hready : r.ready = .ok ()) :
    r.executeHooks phase operation
      = (r.scheduledHooks phase operation).foldlM (fun op hook => hook.fn op) operation := by
  funext w
  simp [Resource.executeHooks, hready, M.bind_eq, M.andThen, M.await, promiseReduce_eq_foldlM]

theorem scheduledHooks_sorted (r : Resource) (phase : Phase) (operation : Operation) :
    (r.scheduledHooks phase operation).Pairwise (fun a b => a.sortKey ≤ b.sortKey) :=
  sortBy_sorted _ _

/-- C1, the code at the failing input: of two `pre` hooks for `create`
declared as hook 1 with priority 0 and hook 2 with priority 3, the hook with
priority 3 is scheduled and run first, because `hook.priority || 5` orders
the priority 0 as 5. -/
theorem executeHooks_priority_zero_runs_last :
    widgetsZeroFirst.ready = .ok () ∧
    (widgetsZeroFirst.scheduledHooks .pre (Operation.fresh "create" .undefined)).map
        (fun hook => hook.priority) = [some 3, some 0] ∧
    (widgetsZeroFirst.scheduledHooks .pre (Operation.fresh "create" .undefined)).map
        (fun hook => hook.sortKey) = [3, 5] ∧
    (widgetsZeroFirst.executeHooks .pre (Operation.fresh "create" .undefined) World.fresh).2.trace
      = [.mark 2, .mark 1] := by
  refine ⟨rfl, ?_, ?_, ?_⟩
  · decide
  · decide
  · decide

/-- C2: on an initialised resource, for every phase and operation, the hooks
that `executeHooks` runs are the declared hooks of the phase whose `op` equals
`operation.key`, each once and no other (a permutation of the matching hooks);
hooks of equal priority keep their declaration order (and so do hooks whose
priorities count as equal, an unset priority counting as 5); the operation is
folded through them in sequence, each hook receiving what the previous one
returned and the first the input operation, and the last result is returned (a
hook that rejects ends the chain with its rejection); and when no hook
matches, or the phase has no hook list, the input operation is returned
unchanged and nothing else happens. -/
theorem executeHooks_chain (r : Resource) (phase : Phase) (operation : Operation) (w : World)
    (hready : r.ready = .ok ()) :
    r.executeHooks phase operation w
      = (r.scheduledHooks phase operation).foldlM (fun op hook => hook.fn op) operation w
    ∧ (r.scheduledHooks phase operation).Perm
        (((r.phaseHooks phase).getD []).filter (fun hook => hook.op.isStr operation.key))
    ∧ (∀ hook ∈ r.scheduledHooks phase operation,
        hook ∈ (r.phaseHooks phase).getD [] ∧ hook.op = .str operation.key)
    ∧ (∀ p : Option Int,
        (r.scheduledHooks phase operation).filter (fun hook => decide (hook.priority = p))
          = (((r.phaseHooks phase).getD []).filter (fun hook => hook.op.isStr operation.key)).filter
              (fun hook => decide (hook.priority = p)))
    ∧ (∀ k : Int,
        (r.scheduledHooks phase operation).filter (fun hook => decide (hook.sortKey = k))
          = (((r.phaseHooks phase).getD []).filter (fun hook => hook.op.isStr operation.key)).filter
              (fun hook => decide (hook.sortKey = k)))
    ∧ (∀ (hook : Hook) (rest : List Hook),
        r.scheduledHooks phase operation = hook :: rest →
        r.executeHooks phase operation w
          = M.andThen (hook.fn operation)
              (fun next => rest.foldlM (fun op hook => hook.fn op) next) w)
    ∧ (((r.phaseHooks phase).getD []).filter (fun hook => hook.op.isStr operation.key) = [] →
        r.executeHooks phase operation w = (.ok operation, w))
    ∧ (r.phaseHooks phase = none → r.executeHooks phase operation w = (.ok operation, w)) := by
  have hrun := executeHooks_run r phase operation hready
  refine ⟨by rw [hrun], sortBy_perm _ _, ?_, ?_, ?_, ?_, ?_, ?_⟩
  · intro hook hmem
    have hmem' := (sortBy_perm Hook.sortKey _).mem_iff.1 hmem
    rw [List.mem_filter] at hmem'
    refine ⟨hmem'.1, ?_⟩
    have hop := hmem'.2
    cases hv : hook.op <;> simp [hv, JsVal.isStr] at hop ⊢
    exact hop
  · intro p
    apply filter_sortBy
    intro x y hx hy
    have hx' : x.priority = p := by simpa using hx
    have hy' : y.priority = p := by simpa using hy
    simp [Hook.sortKey, hx', hy']
  · intro k
    apply filter_sortBy
    intro x y hx hy
    have hx' : x.sortKey = k := by simpa using hx
    have hy' : y.sortKey = k := by simpa using hy
    rw [hx', hy']
  · intro hook rest hsched
    rw [hrun, hsched]
    rfl
  · intro hnone
    rw [hrun]
    simp [Resource.scheduledHooks, hnone, sortBy]
    rfl
  · intro hnone
    rw [hrun]
    simp [Resource.scheduledHooks, hnone, sortBy]
    rfl

/-- Of the four `pre` hooks of `widgetsHooked`, a `create` operation runs hook
3 (priority 1), then hooks 1 and 4 (no priority, in declaration order), and
not hook 2 (declared for `read`); the operation returned is the one the last
hook returned. -/
theorem executeHooks_chain_witness :
    widgetsHooked.ready = .ok () ∧
    widgetsHooked.executeHooks .pre (Operation.fresh "create" .undefined) World.fresh
      = (.ok { Operation.fresh "create" .undefined with payload := .num 4 },
         { res := Response.fresh, trace := [.mark 3, .mark 1, .mark 4] }) := by
  refine ⟨rfl, ?_⟩
  rw [(executeHooks_chain widgetsHooked .pre (Operation.fresh "create" .undefined) World.fresh
    rfl).1]
  rfl

/-! ## The six operation methods (C9) -/

theorem staged_of_eq (r : Resource) (entry : String) (defaultHandler : Operation → M Operation)
    (method : Operation → M Operation)
    (h : ∀ (operation : Operation) (w : World),
      method operation w
        = M.andThen (r.executeHooks .pre operation)
            (fun op => M.andThen (r.executeHandler op defaultHandler)
              (fun handled => r.executeHooks .post handled))
            { res := w.res, trace := w.trace ++ [.log .debug entry] }) :
    r.Staged entry defaultHandler method := by
  intro operation w
  refine ⟨h operation w, ?_, ?_, ?_⟩
  · intro e w1 hpre
    rw [h operation w, M.andThen_error _ _ _ _ _ hpre]
  · intro op w1 e w2 hpre hhandler
    rw [h operation w, M.andThen_ok _ _ _ _ _ hpre, M.andThen_error _ _ _ _ _ hhandler]
  · intro op w1 handled w2 hpre hhandler
    rw [h operation w, M.andThen_ok _ _ _ _ _ hpre, M.andThen_ok _ _ _ _ _ hhandler]

/-- C9: each of the six operation methods is the three-stage composition
`executeHooks('pre') → executeHandler(·, default handler of the method) →
executeHooks('post')`: the handler is invoked on what the completed `pre`
chain returned, in the world that chain left; the `post` hooks receive what
the handler returned; a failure of a `pre` hook is the outcome of the method
in the very world it occurred in, so neither the handler, nor the backend, nor
any `post` hook has run; a failure of the handler likewise, so no `post` hook
has run.  The default handlers return the operation with its `result` set: a
promise for `read`, `list`, `update`, `patch` and `remove`, which never fail
themselves, and the resolved value for `create`, which fails when that promise
is rejected. -/
theorem methods_staged (env : Env) (r : Resource) :
    r.Staged "Handling read %s operation" (doRead r) r.read
    ∧ r.Staged "Handling list %s operation" (doList r) r.list
    ∧ r.Staged "Handling create %s operation" (doCreate env r) (r.create env)
    ∧ r.Staged "Handling update %s operation" (doUpdate r) r.update
    ∧ r.Staged "Handling patch %s operation" (doPatch r) r.patch
    ∧ r.Staged "Handling remove %s operation" (doRemove r) r.remove
    ∧ (∀ (defaultHandler : Operation → M Operation),
        defaultHandler = doRead r ∨ defaultHandler = doList r ∨ defaultHandler = doUpdate r ∨
          defaultHandler = doPatch r ∨ defaultHandler = doRemove r →
        ∀ (operation : Operation) (w : World), ∃ (p : Promise JsVal) (w' : World),
          defaultHandler operation w = (.ok { operation with result := .promise p }, w'))
    ∧ (∀ (operation : Operation) (w : World),
        (∃ (v : JsVal) (w' : World),
          doCreate env r operation w = (.ok { operation with result := .value v }, w'))
        ∨ (∃ (e : JsVal) (w' : World), doCreate env r operation w = (.error e, w'))) := by
  refine ⟨?_, ?_, ?_, ?_, ?_, ?_, ?_, ?_⟩
  · exact staged_of_eq r _ _ _ (fun _ _ => rfl)
  · exact staged_of_eq r _ _ _ (fun _ _ => rfl)
  · exact staged_of_eq r _ _ _ (fun _ _ => rfl)
  · exact staged_of_eq r _ _ _ (fun _ _ => rfl)
  · exact staged_of_eq r _ _ _ (fun _ _ => rfl)
  · exact staged_of_eq r _ _ _ (fun _ _ => rfl)
  · intro d hd operation w
    rcases hd with rfl | rfl | rfl | rfl | rfl <;> exact ⟨_, _, rfl⟩
  · intro operation w
    rw [doCreate_run]
    rcases createResult env r operation
        { res := w.res, trace := w.trace ++ [.log .debug "performing a create operation"] }
      with ⟨out, w'⟩
    cases out with
    | error e => exact Or.inr ⟨e, w', rfl⟩
    | ok v => exact Or.inl ⟨v, w', rfl⟩

/-- On `widgetsGuarded`, a `read` runs the `pre` hook, then the default handler
and its backend call, then the `post` hook, in this order; and a `create`
whose `pre` hook throws the error of scenario D fails with that error in the
world the hook left: the trace holds the entry log and the mark of the hook,
and neither a backend call nor the mark of the `post` hook. -/
theorem methods_staged_witness :
    widgetsGuarded.read (Operation.fresh "read" (.str "7")) World.fresh
      = (.ok { key := "read", id := .str "7", payload := .num 2,
               result := .promise (.ok (.str "found")) },
         { res := Response.fresh,
           trace := [.log .debug "Handling read %s operation", .mark 1,
             .log .debug "performing a read operation", .backend "read", .mark 2] })
    ∧ widgetsGuarded.create (Env.sample (.str "found") (.obj []) true)
        (Operation.fresh "create" .undefined) World.fresh
      = (.error badRequest,
         { res := Response.fresh,
           trace := [.log .debug "Handling create %s operation", .mark 3] }) :=
  ⟨(((methods_staged (Env.sample (.str "found") (.obj []) true) widgetsGuarded).1
      (Operation.fresh "read" (.str "7")) World.fresh).2.2.2
        { key := "read", id := .str "7", payload := .num 1, result := .unset }
        { res := Response.fresh,
          trace := [.log .debug "Handling read %s operation", .mark 1] }
        { key := "read", id := .str "7", payload := .num 1,
          result := .promise (.ok (.str "found")) }
        { res := Response.fresh,
          trace := [.log .debug "Handling read %s operation", .mark 1,
            .log .debug "performing a read operation", .backend "read"] }
        rfl rfl).trans rfl,
   ((methods_staged (Env.sample (.str "found") (.obj []) true) widgetsGuarded).2.2.1
      (Operation.fresh "create" .undefined) World.fresh).2.1 badRequest _ rfl⟩

/-! ## The create handler on a record that fails validation (C4) -/

theorem init_schema_isSome (env : Env) (spec : Spec)
    (hready : (Resource.new env spec).ready = .ok ()) :
    (Resource.new env spec).schema = some (env.resolveSchema spec.schema) := by
  cases hb : spec.backend <;>
    simp [Resource.new, Resource.failed, getProp, hb] at hready ⊢

/-- C4, the code at the failing input: on a resource that declares a schema,
a successful insert whose record fails `validate` does not resolve to the
inserted record: the chain throws the `ReferenceError` of the undeclared name
`schma`, so `doCreate` and the method `create` reject with it (after the
status was set to 201, and with nothing logged about the validation), and the
error stage answers 500 `schma is not defined`.  On a resource that declares
no schema, `schema` is a promise all the same, so the schema is consulted
(`validate` is called) and a record the validator refuses rejects the create
in the same way. -/
theorem doCreate_invalid_record_rejects :
    (widgetsWithSchema false).ready = .ok () ∧
    doCreate (Env.sample insertedX (.obj [("widget", .obj [])]) false) (widgetsWithSchema false)
        (Operation.fresh "create" .undefined) World.fresh
      = (.error (referenceError "schma"),
         { res := { statusCode := .num 201, sent := none },
           trace := [.log .debug "performing a create operation", .backend "create",
             .log .debug "create result", .log .debug "Let's coerce our return value",
             .log .debug "we have found our schema", .validate] }) ∧
    ((widgetsWithSchema false).create (Env.sample insertedX (.obj [("widget", .obj [])]) false)
        (Operation.fresh "create" .undefined) World.fresh).1
      = .error (referenceError "schma") ∧
    (Resource.handleErrors (referenceError "schma") World.fresh).2.res
      = { statusCode := .num 500, sent := some (.raw (.str "schma is not defined")) } ∧
    (doCreate (Env.sample insertedX (.obj [("widget", .obj [])]) true) (widgetsWithSchema true)
        (Operation.fresh "create" .undefined) World.fresh).1
      = .ok { Operation.fresh "create" .undefined with result := .value recordX } ∧
    (widgetsNoSchema true).schema.isSome = true ∧
    Event.validate ∈ (doCreate (Env.sample insertedX (.obj []) true) (widgetsNoSchema true)
        (Operation.fresh "create" .undefined) World.fresh).2.trace ∧
    (doCreate (Env.sample insertedX (.obj []) false) (widgetsNoSchema false)
        (Operation.fresh "create" .undefined) World.fresh).1
      = .error (referenceError "schma") := by
  refine ⟨rfl, rfl, rfl, rfl, rfl, rfl, ?_, rfl⟩
  decide

end Xlr8Rest
